import Mathlib

/-!
Verification of the remote health monitor (`rpi_monitor.py`).

The script is embedded shallowly: every probe's raw output is an
`Option String` (`none` models a failed remote command, i.e. the Python
value `None`; a successful command yields the stripped stdout).  Python
exceptions are modelled by `Except PyError`; Python `float` values are
modelled exactly as rationals (`ℚ`), so decimal literals such as `75.0`
are represented without rounding.  Python string methods are implemented
as structurally recursive functions on `List Char` mirroring CPython
semantics on the inputs this script can meet (plain decimal numerals;
exponent/inf/nan float syntax and digit underscores are not modelled).
-/

/-- Python whitespace as used by `str.split()` / `str.strip()`. -/
def isPySpace (c : Char) : Bool :=
  c = ' ' || c = '\t' || c = '\n' || c = '\r' || c = '\x0b' || c = '\x0c'

/-- Strip `isPySpace` characters from both ends: Python `str.strip()`. -/
def pyStripList (cs : List Char) : List Char :=
  ((cs.dropWhile isPySpace).reverse.dropWhile isPySpace).reverse

/-- Python `str.strip()` on strings. -/
def pyStrip (s : String) : String :=
  String.mk (pyStripList s.toList)

/-- Split on every occurrence of the (single-character) separator,
keeping empty pieces: Python `str.split(sep)` for a one-char `sep`. -/
def pySplitSepList (sep : Char) : List Char → List (List Char)
  | [] => [[]]
  | c :: cs =>
    let r := pySplitSepList sep cs
    if c = sep then [] :: r
    else
      match r with
      | h :: t => (c :: h) :: t
      | [] => [[c]]

/-- Python `s.split(sep)` for a one-character separator. -/
def pySplitOn (s : String) (sep : Char) : List String :=
  (pySplitSepList sep s.toList).map String.mk

/-- Python `s.split('\n')`, as used on probe outputs. -/
def pyLines (s : String) : List String :=
  pySplitOn s '\n'

/-- Accumulator loop behind `pySplit`: split on whitespace runs,
discarding empty fields (Python `str.split()` with no argument). -/
def pySplitWsAux : List Char → List Char → List (List Char)
  | [], acc => if acc.isEmpty then [] else [acc.reverse]
  | c :: cs, acc =>
    if isPySpace c then
      if acc.isEmpty then pySplitWsAux cs []
      else acc.reverse :: pySplitWsAux cs []
    else pySplitWsAux cs (c :: acc)

/-- Python `str.split()` with no argument. -/
def pySplit (s : String) : List String :=
  (pySplitWsAux s.toList []).map String.mk

/-- Drop trailing copies of `c`: Python `str.rstrip(c)`. -/
def pyRstripChar (s : String) (c : Char) : String :=
  String.mk (s.toList.reverse.dropWhile (fun d => d = c)).reverse

/-- Drop leading and trailing copies of `c`: Python `str.strip(c)`. -/
def pyStripChar (s : String) (c : Char) : String :=
  String.mk (((s.toList.dropWhile (fun d => d = c)).reverse.dropWhile (fun d => d = c)).reverse)

/-- Fuelled worker for `pyReplace`; each step consumes at least one
character of the subject, so fuel `length` suffices. -/
def pyReplaceFuel (old new : List Char) : ℕ → List Char → List Char
  | 0, s => s
  | _ + 1, [] => []
  | fuel + 1, c :: cs =>
    if !old.isEmpty && List.isPrefixOf old (c :: cs) then
      new ++ pyReplaceFuel old new fuel ((c :: cs).drop old.length)
    else c :: pyReplaceFuel old new fuel cs

/-- Python `s.replace(old, new)`: leftmost non-overlapping occurrences. -/
def pyReplace (s old new : String) : String :=
  String.mk (pyReplaceFuel old.toList new.toList s.toList.length s.toList)

/-- Python `needle in hay` substring test. -/
def pyInStr (needle : String) : List Char → Bool
  | [] => needle.toList.isEmpty
  | c :: cs => List.isPrefixOf needle.toList (c :: cs) || pyInStr needle cs

/-- Python `s.startswith(pre)`. -/
def pyStartsWith (s pre : String) : Bool :=
  List.isPrefixOf pre.toList s.toList

/-- Numeric value of a digit string (most significant first). -/
def digitsToNat (ds : List Char) : ℕ :=
  ds.foldl (fun a c => 10 * a + (c.toNat - 48)) 0

/-- Digits-only body of Python `int()`. -/
def pyIntOfDigits (ds : List Char) : Option Int :=
  if !ds.isEmpty && ds.all Char.isDigit then some ((digitsToNat ds : ℕ) : Int) else none

/-- Python `int(s)`: optional sign, nonempty digit run, outer whitespace
allowed; anything else raises `ValueError` (modelled as `none`). -/
def pyInt (s : String) : Option Int :=
  match pyStripList s.toList with
  | '+' :: ds => pyIntOfDigits ds
  | '-' :: ds => (pyIntOfDigits ds).map (fun n => -n)
  | ds => pyIntOfDigits ds

/-- Unsigned body of Python `float()` on plain decimal numerals:
`digits`, `digits.digits`, `.digits` or `digits.` (at least one digit). -/
def pyFloatCore (ds : List Char) : Option ℚ :=
  if ds.contains '.' then
    let ip := ds.takeWhile (fun c => c != '.')
    let fp := (ds.dropWhile (fun c => c != '.')).drop 1
    if fp.contains '.' then none
    else if (ip.all Char.isDigit && fp.all Char.isDigit) && !(ip.isEmpty && fp.isEmpty) then
      some (mkRat (digitsToNat ip * 10 ^ fp.length + digitsToNat fp) (10 ^ fp.length))
    else none
  else pyIntOfDigits ds |>.map (fun n => (n : ℚ))

/-- Python `float(s)` on plain decimal numerals, with optional sign and
outer whitespace; failure (`ValueError`) is `none`. -/
def pyFloat (s : String) : Option ℚ :=
  match pyStripList s.toList with
  | '+' :: ds => pyFloatCore ds
  | '-' :: ds => (pyFloatCore ds).map Neg.neg
  | ds => pyFloatCore ds

/-- The Python exceptions this script can raise while parsing. -/
inductive PyError where
  | valueError
  | indexError
  | zeroDivisionError
deriving DecidableEq, Repr

instance {α : Type} [DecidableEq α] : DecidableEq (Except PyError α) := fun a b =>
  match a, b with
  | .ok x, .ok y =>
    if h : x = y then .isTrue (by rw [h]) else .isFalse (by simp [h])
  | .error x, .error y =>
    if h : x = y then .isTrue (by rw [h]) else .isFalse (by simp [h])
  | .ok _, .error _ => .isFalse (by simp)
  | .error _, .ok _ => .isFalse (by simp)

/-- Python `l[i]` on a list of strings: `IndexError` when out of range. -/
def pyIndexStr (l : List String) (i : ℕ) : Except PyError String :=
  match l.get? i with
  | none => .error .indexError
  | some s => .ok s

/-- Python `int(l[i])`: `IndexError` when out of range, `ValueError`
when the field is not an integer numeral. -/
def pyIndexInt (l : List String) (i : ℕ) : Except PyError Int :=
  match l.get? i with
  | none => .error .indexError
  | some s =>
    match pyInt s with
    | none => .error .valueError
    | some n => .ok n

/-- Truthiness filter for `if probe_output:` on an `Optional[str]`:
`None` and the empty string are falsy. -/
def optStr : Option String → Option String
  | some s => if s = "" then none else some s
  | none => none

/-- Boolean truthiness of an `Optional[str]`. -/
def strTruthy : Option String → Bool
  | some s => s ≠ ""
  | none => false

/-- Outcome of the remote `subprocess.run` call: completion with an exit
status, expiry of the 30s timeout, or failure to establish the channel. -/
inductive ExecOutcome where
  | completed (returncode : Int) (stdout stderr : String)
  | timedOut
  | channelError

/-- `_run_remote_command`: stripped stdout on exit status 0, `None`
(after logging) on non-zero exit, timeout, or channel failure. -/
def run_remote_command : ExecOutcome → Option String
  | .completed rc out _ => if rc = 0 then some (pyStrip out) else none
  | .timedOut => none
  | .channelError => none

/-- The `system_info` category record. -/
structure SystemInfo where
  uptime : Option String
  kernel_version : Option String
  os_version : Option String
deriving DecidableEq, Repr

/-- `os_version.split('=')[1].strip('"')`; the index can raise. -/
def osVersionField (os_version : Option String) : Except PyError (Option String) :=
  match os_version with
  | none => .ok none
  | some s =>
    if s = "" then .ok none
    else
      match pyIndexStr (pySplitOn s '=') 1 with
      | .error e => .error e
      | .ok v => .ok (some (pyStripChar v '"'))

/-- `get_system_info`. -/
def get_system_info (uptime kernel os_version : Option String) : Except PyError SystemInfo :=
  match osVersionField os_version with
  | .error e => .error e
  | .ok o => .ok { uptime := optStr uptime, kernel_version := optStr kernel, os_version := o }

/-- The 1/5/15-minute load averages. -/
structure LoadAverage where
  one_min : ℚ
  five_min : ℚ
  fifteen_min : ℚ
deriving DecidableEq, Repr

/-- The `cpu_metrics` category record. -/
structure CpuMetrics where
  cpu_usage_percent : Option ℚ
  load_average : Option LoadAverage
  cpu_temperature_c : Option ℚ
  cpu_frequency_hz : Option Int
deriving DecidableEq, Repr

/-- `loads = load_avg.split()[:3]` followed by the dict of
`float(loads[0]) / float(loads[1]) / float(loads[2])`; both the indexing
and the casts can raise, and nothing catches them. -/
def parseLoadAverage (s : String) : Except PyError LoadAverage :=
  let loads := (pySplit s).take 3
  match pyIndexStr loads 0 with
  | .error e => .error e
  | .ok a =>
    match pyFloat a with
    | none => .error .valueError
    | some x =>
      match pyIndexStr loads 1 with
      | .error e => .error e
      | .ok b =>
        match pyFloat b with
        | none => .error .valueError
        | some y =>
          match pyIndexStr loads 2 with
          | .error e => .error e
          | .ok c =>
            match pyFloat c with
            | none => .error .valueError
            | some z => .ok { one_min := x, five_min := y, fifteen_min := z }

/-- The guarded load-average block of `get_cpu_metrics`. -/
def cpuLoadField (load_avg : Option String) : Except PyError (Option LoadAverage) :=
  match load_avg with
  | none => .ok none
  | some s =>
    if s = "" then .ok none
    else
      match parseLoadAverage s with
      | .error e => .error e
      | .ok v => .ok (some v)

/-- `float(cpu_usage)` under `try/except ValueError`. -/
def cpuUsageField (cpu_usage : Option String) : Option ℚ :=
  match cpu_usage with
  | none => none
  | some s => if s = "" then none else pyFloat s

/-- `float(temp.replace("temp=", "").replace("'C", ""))` under
`try/except ValueError`. -/
def tempField (temp : Option String) : Option ℚ :=
  match temp with
  | none => none
  | some s => if s = "" then none else pyFloat (pyReplace (pyReplace s "temp=" "") "'C" "")

/-- `int(freq.split('=')[1])` under `try/except (ValueError, IndexError)`. -/
def freqField (freq : Option String) : Option Int :=
  match freq with
  | none => none
  | some s => if s = "" then none else ((pySplitOn s '=').get? 1).bind pyInt

/-- `get_cpu_metrics`: the usage, temperature and frequency parses are
individually guarded by `try/except`; the load-average parse is not, so
its failure escapes the function. -/
def get_cpu_metrics (cpu_usage load_avg temp freq : Option String) : Except PyError CpuMetrics :=
  match cpuLoadField load_avg with
  | .error e => .error e
  | .ok lav =>
    .ok { cpu_usage_percent := cpuUsageField cpu_usage
          load_average := lav
          cpu_temperature_c := tempField temp
          cpu_frequency_hz := freqField freq }

/-- The `metrics['memory']` record of `get_memory_metrics`. -/
structure MemRecord where
  total_mb : Int
  used_mb : Int
  free_mb : Int
  available_mb : Int
  usage_percent : ℚ
deriving DecidableEq, Repr

/-- The `metrics['swap']` record of `get_memory_metrics`. -/
structure SwapRecord where
  size : String
  used : String
  usage_percent : ℚ
deriving DecidableEq, Repr

/-- The `memory_metrics` category record. -/
structure MemoryMetrics where
  memory : Option MemRecord
  swap : Option SwapRecord
deriving DecidableEq, Repr

/-- The unguarded `int(mem_line[i])` casts and the
`used_mb / total_mb * 100` division of `get_memory_metrics`, applied to
`mem_line = lines[1].split()`. -/
def parseMemRecord (mem_line : List String) : Except PyError MemRecord :=
  match pyIndexInt mem_line 1 with
  | .error e => .error e
  | .ok total =>
    match pyIndexInt mem_line 2 with
    | .error e => .error e
    | .ok used =>
      match pyIndexInt mem_line 3 with
      | .error e => .error e
      | .ok free =>
        match (if mem_line.length > 6 then pyIndexInt mem_line 6 else pyIndexInt mem_line 3) with
        | .error e => .error e
        | .ok avail =>
          if total = 0 then .error .zeroDivisionError
          else
            .ok { total_mb := total, used_mb := used, free_mb := free, available_mb := avail
                  usage_percent := (used : ℚ) / (total : ℚ) * 100 }

/-- The guarded `free -m` block of `get_memory_metrics`. -/
def memoryField (mem_info : Option String) : Except PyError (Option MemRecord) :=
  match mem_info with
  | none => .ok none
  | some s =>
    if s = "" then .ok none
    else
      if (pyLines s).length ≥ 2 then
        match parseMemRecord (pySplit ((pyLines s).getD 1 "")) with
        | .error e => .error e
        | .ok r => .ok (some r)
      else .ok none

/-- The swap-line parse of `get_memory_metrics`: the guard checks
`len(swap_parts) >= 4` but the dict reads `swap_parts[4]`, and the
percentage cast can raise `ValueError`. -/
def parseSwapRecord (swap_parts : List String) : Except PyError (Option SwapRecord) :=
  if swap_parts.length ≥ 4 then
    match pyIndexStr swap_parts 1 with
    | .error e => .error e
    | .ok size =>
      match pyIndexStr swap_parts 2 with
      | .error e => .error e
      | .ok used =>
        match pyIndexStr swap_parts 4 with
        | .error e => .error e
        | .ok p =>
          match pyFloat (pyRstripChar p '%') with
          | none => .error .valueError
          | some pct => .ok (some { size := size, used := used, usage_percent := pct })
  else .ok none

/-- The guarded `swapon --show --noheadings` block of
`get_memory_metrics`. -/
def swapField (swap_info : Option String) : Except PyError (Option SwapRecord) :=
  match swap_info with
  | none => .ok none
  | some s =>
    if s = "" then .ok none
    else
      if (pyLines (pyStrip s)).getD 0 "" = "" then .ok none
      else parseSwapRecord (pySplit ((pyLines (pyStrip s)).getD 0 ""))

/-- `get_memory_metrics`. -/
def get_memory_metrics (mem_info swap_info : Option String) : Except PyError MemoryMetrics :=
  match memoryField mem_info with
  | .error e => .error e
  | .ok m =>
    match swapField swap_info with
    | .error e => .error e
    | .ok sw => .ok { memory := m, swap := sw }

/-- One entry of the `df -h` device list. -/
structure DiskEntry where
  device : String
  size : String
  used : String
  available : String
  usage_percent : String
  mount_point : String
deriving DecidableEq, Repr

/-- The `disk_metrics` category record. -/
structure DiskMetrics where
  disk_usage : Option (List DiskEntry)
  disk_io : Option String
deriving DecidableEq, Repr

/-- `get_disk_metrics`: lines after the header that have at least six
fields and a `/dev/` device are kept; other lines are skipped. -/
def get_disk_metrics (disk_usage iostat : Option String) : DiskMetrics :=
  { disk_usage :=
      match disk_usage with
      | none => none
      | some s =>
        if s = "" then none
        else
          some (((pyLines s).drop 1).filterMap (fun line =>
            let parts := pySplit line
            if parts.length ≥ 6 && pyStartsWith (parts.getD 0 "") "/dev/" then
              some { device := parts.getD 0 "", size := parts.getD 1 "",
                     used := parts.getD 2 "", available := parts.getD 3 "",
                     usage_percent := pyRstripChar (parts.getD 4 "") '%',
                     mount_point := parts.getD 5 "" }
            else none))
    disk_io := optStr iostat }

/-- The `network_metrics` category record. -/
structure NetworkMetrics where
  network_interfaces : Option String
  internet_connectivity : Option Bool
  active_connections : Option Int
deriving DecidableEq, Repr

/-- `get_network_metrics`: `internet_connectivity` is always assigned —
substring heuristics on a truthy ping output, `False` otherwise. -/
def get_network_metrics (interfaces ping_test conns : Option String) : NetworkMetrics :=
  { network_interfaces := optStr interfaces
    internet_connectivity :=
      some (match ping_test with
            | none => false
            | some s =>
              if s = "" then false
              else pyInStr "ping successful" s.toList || pyInStr "3 received" s.toList)
    active_connections :=
      match conns with
      | none => none
      | some s => if s = "" then none else some (((pyLines s).length : Int) - 1) }

/-- The `process_metrics` category record. -/
structure ProcessMetrics where
  top_cpu_processes : Option String
  top_memory_processes : Option String
  total_processes : Option Int
  failed_services : Option (List String)
deriving DecidableEq, Repr

/-- `int(proc_count) - 1` under `try/except ValueError`. -/
def procCountField (proc_count : Option String) : Option Int :=
  match proc_count with
  | none => none
  | some s => if s = "" then none else (pyInt s).map (fun n => n - 1)

/-- `get_process_metrics`: the process-count cast is guarded by
`try/except ValueError`; the failed-services field keeps the code's
`split('\n') if failed_services.strip() else []` conditional. -/
def get_process_metrics (top_cpu top_mem proc_count failed_svcs : Option String) : ProcessMetrics :=
  { top_cpu_processes := optStr top_cpu
    top_memory_processes := optStr top_mem
    total_processes := procCountField proc_count
    failed_services :=
      match failed_svcs with
      | none => none
      | some s =>
        if s = "" then none
        else some (if pyStrip s ≠ "" then pyLines s else []) }

/-- The `log_errors` category record. -/
structure LogErrors where
  recent_kernel_errors : Option (List String)
  recent_syslog_errors : Option (List String)
deriving DecidableEq, Repr

/-- `get_log_errors`. -/
def get_log_errors (kernel_errs syslog_errs : Option String) : LogErrors :=
  { recent_kernel_errors :=
      match kernel_errs with
      | none => none
      | some s => if s = "" then none else some (pyLines s)
    recent_syslog_errors :=
      match syslog_errs with
      | none => none
      | some s => if s = "" then none else some (pyLines s) }

/-- The stripped outputs of the twenty remote probes of one cycle; a
`none` is a probe whose remote command failed. -/
structure ProbeOutputs where
  uptime : Option String
  kernel : Option String
  os_version : Option String
  cpu_usage : Option String
  load_avg : Option String
  temp : Option String
  freq : Option String
  mem_info : Option String
  swap_info : Option String
  disk_usage : Option String
  iostat : Option String
  interfaces : Option String
  ping_test : Option String
  conns : Option String
  top_cpu : Option String
  top_mem : Option String
  proc_count : Option String
  failed_svcs : Option String
  kernel_errs : Option String
  syslog_errs : Option String
deriving DecidableEq

/-- One cycle's aggregated snapshot document. -/
structure Snapshot where
  timestamp : String
  hostname : String
  system_info : SystemInfo
  cpu_metrics : CpuMetrics
  memory_metrics : MemoryMetrics
  disk_metrics : DiskMetrics
  network_metrics : NetworkMetrics
  process_metrics : ProcessMetrics
  log_errors : LogErrors
deriving DecidableEq

/-- `collect_all_metrics`: the category getters run in order; an
exception escaping a getter aborts the whole snapshot. -/
def collect_all_metrics (ts hostname : String) (p : ProbeOutputs) : Except PyError Snapshot :=
  match get_system_info p.uptime p.kernel p.os_version with
  | .error e => .error e
  | .ok sys =>
    match get_cpu_metrics p.cpu_usage p.load_avg p.temp p.freq with
    | .error e => .error e
    | .ok cpu =>
      match get_memory_metrics p.mem_info p.swap_info with
      | .error e => .error e
      | .ok mem =>
        .ok { timestamp := ts, hostname := hostname, system_info := sys
              cpu_metrics := cpu, memory_metrics := mem
              disk_metrics := get_disk_metrics p.disk_usage p.iostat
              network_metrics := get_network_metrics p.interfaces p.ping_test p.conns
              process_metrics := get_process_metrics p.top_cpu p.top_mem p.proc_count p.failed_svcs
              log_errors := get_log_errors p.kernel_errs p.syslog_errs }

/-- `save_metrics`: the write is wrapped in `try/except`, so a failing
write is logged and swallowed; the result records what reached disk. -/
def save_metrics (writeOk : Bool) (m : Snapshot) : Option Snapshot :=
  if writeOk then some m else none

/-- Observable outcome of `monitor_once`: its boolean return value, the
persisted document if the write succeeded, and the two threshold
warnings. -/
structure CycleOutcome where
  success : Bool
  saved : Option Snapshot
  tempWarned : Bool
  memWarned : Bool
deriving DecidableEq

/-- `monitor_once`: collection and persistence under a catch-all; the
threshold checks run after `save_metrics` and only log. -/
def monitor_once (ts hostname : String) (p : ProbeOutputs) (writeOk : Bool) : CycleOutcome :=
  match collect_all_metrics ts hostname p with
  | .error _ => { success := false, saved := none, tempWarned := false, memWarned := false }
  | .ok m =>
    { success := true
      saved := save_metrics writeOk m
      tempWarned :=
        match m.cpu_metrics.cpu_temperature_c with
        | some t => decide (t > 70)
        | none => false
      memWarned :=
        match m.memory_metrics.memory with
        | some r => decide (r.usage_percent > 90)
        | none => false }

/-- One iteration's external stimulus in `monitor_continuous`: either a
full cycle runs (with that cycle's probe outputs and write outcome), or
a keyboard interrupt arrives. -/
inductive LoopEvent where
  | cycle (p : ProbeOutputs) (writeOk : Bool)
  | interrupt

/-- State of the `while True` loop of `monitor_continuous`. -/
structure LoopState where
  stopped : Bool
  cycles : ℕ
  failedCycleLogs : ℕ
deriving DecidableEq

/-- Initial loop state. -/
def loopInit : LoopState :=
  { stopped := false, cycles := 0, failedCycleLogs := 0 }

/-- One iteration of `monitor_continuous`: a completed cycle increments
the cycle count and, when `monitor_once` returned `False`, logs one
failed-cycle entry and continues; `KeyboardInterrupt` breaks the loop. -/
def loopStep (ts hostname : String) (s : LoopState) : LoopEvent → LoopState
  | .cycle p writeOk =>
    if s.stopped then s
    else
      { stopped := false
        cycles := s.cycles + 1
        failedCycleLogs :=
          s.failedCycleLogs + (if (monitor_once ts hostname p writeOk).success then 0 else 1) }
  | .interrupt => if s.stopped then s else { s with stopped := true }

/-- The loop state after `n` iterations fed by the event stream. -/
def loopRun (ts hostname : String) (events : ℕ → LoopEvent) : ℕ → LoopState
  | 0 => loopInit
  | n + 1 => loopStep ts hostname (loopRun ts hostname events n) (events n)

/-! Elimination lemmas for successful runs of the category getters. -/

/-- A successful `get_system_info` determines every field. -/
theorem get_system_info_ok {u k o : Option String} {r : SystemInfo}
    (h : get_system_info u k o = Except.ok r) :
    r.uptime = optStr u ∧ r.kernel_version = optStr k ∧
    osVersionField o = Except.ok r.os_version := by
  unfold get_system_info at h
  cases ho : osVersionField o with
  | error e => rw [ho] at h; exact absurd h (by simp)
  | ok ov =>
    rw [ho] at h
    injection h with h
    subst h
    exact ⟨rfl, rfl, rfl⟩

/-- A successful `get_cpu_metrics` determines every field. -/
theorem get_cpu_metrics_ok {u la t f : Option String} {r : CpuMetrics}
    (h : get_cpu_metrics u la t f = Except.ok r) :
    r.cpu_usage_percent = cpuUsageField u ∧ cpuLoadField la = Except.ok r.load_average ∧
    r.cpu_temperature_c = tempField t ∧ r.cpu_frequency_hz = freqField f := by
  unfold get_cpu_metrics at h
  cases hl : cpuLoadField la with
  | error e => rw [hl] at h; exact absurd h (by simp)
  | ok lav =>
    rw [hl] at h
    injection h with h
    subst h
    exact ⟨rfl, rfl, rfl, rfl⟩

/-- A successful `get_memory_metrics` determines both fields. -/
theorem get_memory_metrics_ok {mi si : Option String} {m : MemoryMetrics}
    (h : get_memory_metrics mi si = Except.ok m) :
    memoryField mi = Except.ok m.memory ∧ swapField si = Except.ok m.swap := by
  unfold get_memory_metrics at h
  cases hm : memoryField mi with
  | error e => rw [hm] at h; exact absurd h (by simp)
  | ok mr =>
    rw [hm] at h
    cases hs : swapField si with
    | error e => rw [hs] at h; exact absurd h (by simp)
    | ok sr =>
      rw [hs] at h
      injection h with h
      subst h
      exact ⟨rfl, rfl⟩

/-- A successful `collect_all_metrics` determines every category. -/
theorem collect_all_metrics_ok {ts hn : String} {p : ProbeOutputs} {m : Snapshot}
    (h : collect_all_metrics ts hn p = Except.ok m) :
    get_system_info p.uptime p.kernel p.os_version = Except.ok m.system_info ∧
    get_cpu_metrics p.cpu_usage p.load_avg p.temp p.freq = Except.ok m.cpu_metrics ∧
    get_memory_metrics p.mem_info p.swap_info = Except.ok m.memory_metrics ∧
    m.disk_metrics = get_disk_metrics p.disk_usage p.iostat ∧
    m.network_metrics = get_network_metrics p.interfaces p.ping_test p.conns ∧
    m.process_metrics = get_process_metrics p.top_cpu p.top_mem p.proc_count p.failed_svcs ∧
    m.log_errors = get_log_errors p.kernel_errs p.syslog_errs ∧
    m.timestamp = ts ∧ m.hostname = hn := by
  unfold collect_all_metrics at h
  cases h1 : get_system_info p.uptime p.kernel p.os_version with
  | error e => rw [h1] at h; exact absurd h (by simp)
  | ok sys =>
    rw [h1] at h
    cases h2 : get_cpu_metrics p.cpu_usage p.load_avg p.temp p.freq with
    | error e => rw [h2] at h; exact absurd h (by simp)
    | ok cpu =>
      rw [h2] at h
      cases h3 : get_memory_metrics p.mem_info p.swap_info with
      | error e => rw [h3] at h; exact absurd h (by simp)
      | ok mem =>
        rw [h3] at h
        injection h with h
        subst h
        exact ⟨rfl, rfl, rfl, rfl, rfl, rfl, rfl, rfl, rfl⟩

/-- A successful `parseMemRecord` computes `usage_percent` by the
`used/total*100` formula, with a nonzero total. -/
theorem parseMemRecord_ok {l : List String} {r : MemRecord}
    (h : parseMemRecord l = Except.ok r) :
    r.usage_percent = (r.used_mb : ℚ) / (r.total_mb : ℚ) * 100 ∧ r.total_mb ≠ 0 := by
  unfold parseMemRecord at h
  split at h
  next => exact absurd h (by simp)
  next total htot =>
    split at h
    next => exact absurd h (by simp)
    next used hused =>
      split at h
      next => exact absurd h (by simp)
      next free hfree =>
        split at h
        next => exact absurd h (by simp)
        next avail havail =>
          split at h
          next => exact absurd h (by simp)
          next ht =>
            injection h with h
            subst h
            exact ⟨rfl, ht⟩

/-- A present memory record always comes from `parseMemRecord`. -/
theorem memoryField_ok_some {mi : Option String} {r : MemRecord}
    (h : memoryField mi = Except.ok (some r)) :
    ∃ l, parseMemRecord l = Except.ok r := by
  unfold memoryField at h
  split at h
  · exact absurd h (by simp)
  · split at h
    · exact absurd h (by simp)
    · split at h
      · split at h
        · exact absurd h (by simp)
        · next r2 heq =>
          injection h with h
          injection h with h
          subst h
          exact ⟨_, heq⟩
      · exact absurd h (by simp)

/-! Claim C3. -/

/-- Example `free -m` output from the spec: a header line, then the
`Mem:` row `1024 512 512 ... 400` with `available` in column seven. -/
def memExample : String :=
  "total used free shared buff/cache available\nMem: 1024 512 512 10 20 400"

/-- C3: whenever the memory record is present, its `usage_percent`
equals `used_mb / total_mb * 100` (in particular for every positive
total), and on the spec's example `free -m` output the parsed record is
`total 1024 / used 512 / free 512 / available 400` with usage percent
exactly `50`. -/
theorem memory_usage_percent_formula :
    (∀ mi si m r, get_memory_metrics mi si = Except.ok m → m.memory = some r →
        0 < r.total_mb → r.usage_percent = (r.used_mb : ℚ) / (r.total_mb : ℚ) * 100) ∧
    get_memory_metrics (some memExample) none =
      Except.ok { memory := some { total_mb := 1024, used_mb := 512, free_mb := 512,
                                   available_mb := 400,
                                   usage_percent := ((512 : Int) : ℚ) / ((1024 : Int) : ℚ) * 100 },
                  swap := none } ∧
    ((512 : Int) : ℚ) / ((1024 : Int) : ℚ) * 100 = 50 := by
  refine ⟨?_, by rfl, by norm_num⟩
  intro mi si m r h hmem _
  have hm := (get_memory_metrics_ok h).1
  rw [hmem] at hm
  obtain ⟨l, hl⟩ := memoryField_ok_some hm
  exact (parseMemRecord_ok hl).1

/-- The memory record parsed from `memExample`. -/
def memExampleRecord : MemRecord :=
  { total_mb := 1024, used_mb := 512, free_mb := 512, available_mb := 400,
    usage_percent := ((512 : Int) : ℚ) / ((1024 : Int) : ℚ) * 100 }

/-- C3 witness: the usage-percent formula instantiated on the spec's
example `free -m` output. -/
theorem memory_usage_percent_formula_witness :
    memExampleRecord.usage_percent
      = (memExampleRecord.used_mb : ℚ) / (memExampleRecord.total_mb : ℚ) * 100 :=
  memory_usage_percent_formula.1 (some memExample) none
    { memory := some memExampleRecord, swap := none } memExampleRecord
    (by rfl) rfl (by decide)

/-! Claim C5. -/

/-- C5: the code means to record an empty `failed_services` list when
there are no failed services, but a successful probe with no failed
services produces empty stdout, the executor strips and returns it, and
the truthiness guard then omits the field entirely; the `else []` branch
is unreachable because the guarded value is pre-stripped.  A truthy
output stores the line split instead. -/
theorem failed_services_empty_output_omitted :
    run_remote_command (ExecOutcome.completed 0 "" "") = some "" ∧
    (get_process_metrics none none none (some "")).failed_services = none ∧
    (get_process_metrics none none none
        (some "myservice.service loaded failed failed My Service")).failed_services
      = some ["myservice.service loaded failed failed My Service"] := by
  exact ⟨rfl, rfl, by decide⟩

/-! Claim C6. -/

/-- The claim's notion of a snapshot that carries only the timestamp and
the target identifier: every category record is empty. -/
def onlyTimestampAndTarget (s : Snapshot) : Prop :=
  s.system_info = { uptime := none, kernel_version := none, os_version := none } ∧
  s.cpu_metrics = { cpu_usage_percent := none, load_average := none,
                    cpu_temperature_c := none, cpu_frequency_hz := none } ∧
  s.memory_metrics = { memory := none, swap := none } ∧
  s.disk_metrics = { disk_usage := none, disk_io := none } ∧
  s.network_metrics = { network_interfaces := none, internet_connectivity := none,
                        active_connections := none } ∧
  s.process_metrics = { top_cpu_processes := none, top_memory_processes := none,
                        total_processes := none, failed_services := none } ∧
  s.log_errors = { recent_kernel_errors := none, recent_syslog_errors := none }

/-- Probe outputs of a cycle in which every remote command failed. -/
def c6Probes : ProbeOutputs :=
  ⟨none, none, none, none, none, none, none, none, none, none,
   none, none, none, none, none, none, none, none, none, none⟩

/-- The snapshot assembled when every probe fails. -/
def c6Snap : Snapshot :=
  { timestamp := "2024-01-01T00:00:00", hostname := "pi",
    system_info := { uptime := none, kernel_version := none, os_version := none },
    cpu_metrics := { cpu_usage_percent := none, load_average := none,
                     cpu_temperature_c := none, cpu_frequency_hz := none },
    memory_metrics := { memory := none, swap := none },
    disk_metrics := { disk_usage := none, disk_io := none },
    network_metrics := { network_interfaces := none, internet_connectivity := some false,
                         active_connections := none },
    process_metrics := { top_cpu_processes := none, top_memory_processes := none,
                         total_processes := none, failed_services := none },
    log_errors := { recent_kernel_errors := none, recent_syslog_errors := none } }

/-- C6 counterexample: when every probe fails the assembled snapshot
does not contain only the timestamp and target — the network category
still carries `internet_connectivity = false`. -/
theorem all_probes_failed_snapshot_not_minimal :
    collect_all_metrics "2024-01-01T00:00:00" "pi" c6Probes = Except.ok c6Snap ∧
    c6Snap.network_metrics.internet_connectivity = some false ∧
    ¬ onlyTimestampAndTarget c6Snap := by
  refine ⟨by rfl, rfl, fun hot => ?_⟩
  exact absurd hot.2.2.2.2.1 (by decide)

/-- C6 (amended): when every probe fails, a well-formed snapshot is
still assembled, the cycle succeeds and the snapshot is persisted; it
carries the timestamp and target, every probe-derived field is absent,
and the only other content is the connectivity flag defaulted to
`false`. -/
theorem all_probes_failed_snapshot_amended :
    ∀ ts hn,
      collect_all_metrics ts hn c6Probes = Except.ok
        { timestamp := ts, hostname := hn,
          system_info := { uptime := none, kernel_version := none, os_version := none },
          cpu_metrics := { cpu_usage_percent := none, load_average := none,
                           cpu_temperature_c := none, cpu_frequency_hz := none },
          memory_metrics := { memory := none, swap := none },
          disk_metrics := { disk_usage := none, disk_io := none },
          network_metrics := { network_interfaces := none, internet_connectivity := some false,
                               active_connections := none },
          process_metrics := { top_cpu_processes := none, top_memory_processes := none,
                               total_processes := none, failed_services := none },
          log_errors := { recent_kernel_errors := none, recent_syslog_errors := none } } ∧
      (monitor_once ts hn c6Probes true).success = true ∧
      (monitor_once ts hn c6Probes true).saved = some
        { timestamp := ts, hostname := hn,
          system_info := { uptime := none, kernel_version := none, os_version := none },
          cpu_metrics := { cpu_usage_percent := none, load_average := none,
                           cpu_temperature_c := none, cpu_frequency_hz := none },
          memory_metrics := { memory := none, swap := none },
          disk_metrics := { disk_usage := none, disk_io := none },
          network_metrics := { network_interfaces := none, internet_connectivity := some false,
                               active_connections := none },
          process_metrics := { top_cpu_processes := none, top_memory_processes := none,
                               total_processes := none, failed_services := none },
          log_errors := { recent_kernel_errors := none, recent_syslog_errors := none } } := by
  intro ts hn
  exact ⟨rfl, rfl, rfl⟩

/-! Claim C10. -/

/-- C10: a persistence failure is swallowed inside `save_metrics`, so a
cycle whose collection succeeded still returns `True` even though
nothing reached disk. -/
theorem save_failure_still_success :
    ∀ ts hn p m, collect_all_metrics ts hn p = Except.ok m →
      (monitor_once ts hn p false).success = true ∧
      (monitor_once ts hn p false).saved = none ∧
      save_metrics false m = none := by
  intro ts hn p m h
  unfold monitor_once
  rw [h]
  exact ⟨rfl, rfl, rfl⟩

/-- Probe outputs for the C10 witness (every probe failed). -/
def c10Probes : ProbeOutputs :=
  ⟨none, none, none, none, none, none, none, none, none, none,
   none, none, none, none, none, none, none, none, none, none⟩

/-- The snapshot collected from `c10Probes`. -/
def c10Snap : Snapshot :=
  { timestamp := "2024-01-01T00:00:00", hostname := "pi",
    system_info := { uptime := none, kernel_version := none, os_version := none },
    cpu_metrics := { cpu_usage_percent := none, load_average := none,
                     cpu_temperature_c := none, cpu_frequency_hz := none },
    memory_metrics := { memory := none, swap := none },
    disk_metrics := { disk_usage := none, disk_io := none },
    network_metrics := { network_interfaces := none, internet_connectivity := some false,
                         active_connections := none },
    process_metrics := { top_cpu_processes := none, top_memory_processes := none,
                         total_processes := none, failed_services := none },
    log_errors := { recent_kernel_errors := none, recent_syslog_errors := none } }

/-- C10 witness: a concrete cycle with a failed write still succeeds. -/
theorem save_failure_still_success_witness :
    (monitor_once "2024-01-01T00:00:00" "pi" c10Probes false).success = true ∧
    (monitor_once "2024-01-01T00:00:00" "pi" c10Probes false).saved = none ∧
    save_metrics false c10Snap = none :=
  save_failure_still_success "2024-01-01T00:00:00" "pi" c10Probes c10Snap (by decide)

/-! Claim C8. -/

/-- C8: any swap output whose first line has fewer than four
whitespace-separated fields behaves exactly like an absent swap probe —
the line is skipped without raising and the swap field stays absent. -/
theorem swap_short_line_skipped :
    (∀ mi si, (pySplit ((pyLines (pyStrip si)).getD 0 "")).length < 4 →
        get_memory_metrics mi (some si) = get_memory_metrics mi none) ∧
    (∀ mi si m, (pySplit ((pyLines (pyStrip si)).getD 0 "")).length < 4 →
        get_memory_metrics mi (some si) = Except.ok m → m.swap = none) := by
  have key : ∀ si : String, (pySplit ((pyLines (pyStrip si)).getD 0 "")).length < 4 →
      swapField (some si) = Except.ok none := by
    intro si hlen
    show (if si = "" then Except.ok none
          else if (pyLines (pyStrip si)).getD 0 "" = "" then Except.ok none
          else parseSwapRecord (pySplit ((pyLines (pyStrip si)).getD 0 ""))) = Except.ok none
    by_cases hsi : si = ""
    · rw [if_pos hsi]
    · rw [if_neg hsi]
      by_cases hfirst : (pyLines (pyStrip si)).getD 0 "" = ""
      · rw [if_pos hfirst]
      · rw [if_neg hfirst]
        unfold parseSwapRecord
        rw [if_neg (by omega)]
  constructor
  · intro mi si hlen
    have hs := key si hlen
    unfold get_memory_metrics
    simp only [hs, show swapField none = Except.ok none from rfl]
  · intro mi si m hlen hok
    have hs := key si hlen
    have h2 := (get_memory_metrics_ok hok).2
    rw [hs] at h2
    injection h2 with h2
    exact h2.symm

/-- C8 witness: a three-field swap line is skipped and leaves the swap
field absent. -/
theorem swap_short_line_skipped_witness :
    get_memory_metrics none (some "/swapfile file 1G") = get_memory_metrics none none ∧
    ({ memory := none, swap := none } : MemoryMetrics).swap = none :=
  ⟨swap_short_line_skipped.1 none "/swapfile file 1G" (by decide),
   swap_short_line_skipped.2 none "/swapfile file 1G" { memory := none, swap := none }
     (by decide) (by decide)⟩

/-! Claim C9. -/

/-- A list of length four is an explicit four-element list. -/
theorem list_length_four {α : Type} {l : List α} (h : l.length = 4) :
    ∃ a b c d, l = [a, b, c, d] := by
  cases l with
  | nil => simp at h
  | cons a t1 =>
    cases t1 with
    | nil => simp at h
    | cons b t2 =>
      cases t2 with
      | nil => simp at h
      | cons c t3 =>
        cases t3 with
        | nil => simp at h
        | cons d t4 =>
          cases t4 with
          | nil => exact ⟨a, b, c, d, rfl⟩
          | cons e t5 => simp at h

/-- C9: when the first swap line has exactly four whitespace-separated
fields, the `len(swap_parts) >= 4` guard passes but the dict reads
`swap_parts[4]`, so an IndexError escapes `get_memory_metrics` instead
of the line being skipped (here stated for any non-raising memory
block). -/
theorem swap_four_field_line_raises :
    ∀ mi si m, memoryField mi = Except.ok m →
      (pySplit ((pyLines (pyStrip si)).getD 0 "")).length = 4 →
      get_memory_metrics mi (some si) = Except.error PyError.indexError := by
  intro mi si m hmem h4
  have hsi : si ≠ "" := by
    intro he
    subst he
    exact absurd h4 (by decide)
  have hfirst : (pyLines (pyStrip si)).getD 0 "" ≠ "" := by
    intro he
    rw [he] at h4
    exact absurd h4 (by decide)
  obtain ⟨a, b, c, d, habcd⟩ := list_length_four h4
  have hswap : swapField (some si) = Except.error PyError.indexError := by
    show (if si = "" then Except.ok none
          else if (pyLines (pyStrip si)).getD 0 "" = "" then Except.ok none
          else parseSwapRecord (pySplit ((pyLines (pyStrip si)).getD 0 ""))) =
        Except.error PyError.indexError
    rw [if_neg hsi, if_neg hfirst, habcd]
    rfl
  unfold get_memory_metrics
  rw [hmem]
  simp only [hswap]

/-- C9 witness: a concrete four-field `swapon` line raises IndexError
out of the memory category. -/
theorem swap_four_field_line_raises_witness :
    get_memory_metrics none (some "/swapfile file 1G 500M") = Except.error PyError.indexError :=
  swap_four_field_line_raises none "/swapfile file 1G 500M" none (by rfl) (by decide)

/-! Claim C1. -/

/-- Probe outputs with a malformed load average and otherwise valid cpu
data. -/
def c1Probes : ProbeOutputs :=
  ⟨none, none, none, some "50.0", some "a b c", some "temp=50.0'C", none, none, none, none,
   none, none, none, none, none, none, none, none, none, none⟩

/-- C1 counterexample: a cpu load-average parse failure is not
contained — the unguarded `float(loads[0])` raises, the remaining cpu
fields (including a perfectly valid temperature) are lost, the snapshot
is rejected, nothing is persisted and the cycle fails. -/
theorem load_average_parse_failure_rejects_snapshot :
    get_cpu_metrics (some "50.0") (some "a b c") (some "temp=50.0'C") none
      = Except.error PyError.valueError ∧
    collect_all_metrics "2024-01-01T00:00:00" "pi" c1Probes = Except.error PyError.valueError ∧
    (monitor_once "2024-01-01T00:00:00" "pi" c1Probes true).success = false ∧
    (monitor_once "2024-01-01T00:00:00" "pi" c1Probes true).saved = none := by
  exact ⟨by decide, by decide, by decide, by decide⟩

/-- C1 (amended): the parses of cpu usage percent, cpu temperature, cpu
frequency and the process count are wrapped in `try/except` and a
failure omits only that one field, leaving the rest of the category
untouched; but the cpu load-average parse and the memory
total/used/free/available integer parses are unguarded, so their
failure raises an exception that aborts the remaining fields of the
category and the whole snapshot. -/
theorem parse_failure_containment_amended :
    (∀ la t f s, pyFloat s = none →
        get_cpu_metrics (some s) la t f = get_cpu_metrics none la t f) ∧
    (∀ u la f s, pyFloat (pyReplace (pyReplace s "temp=" "") "'C" "") = none →
        get_cpu_metrics u la (some s) f = get_cpu_metrics u la none f) ∧
    (∀ u la t s, ((pySplitOn s '=').get? 1).bind pyInt = none →
        get_cpu_metrics u la t (some s) = get_cpu_metrics u la t none) ∧
    (∀ tc tm fs s, pyInt s = none →
        get_process_metrics tc tm (some s) fs = get_process_metrics tc tm none fs) ∧
    (∀ u t f s e, s ≠ "" → parseLoadAverage s = Except.error e →
        get_cpu_metrics u (some s) t f = Except.error e) ∧
    (∀ si s e, s ≠ "" → (pyLines s).length ≥ 2 →
        parseMemRecord (pySplit ((pyLines s).getD 1 "")) = Except.error e →
        get_memory_metrics (some s) si = Except.error e) := by
  refine ⟨?_, ?_, ?_, ?_, ?_, ?_⟩
  · intro la t f s hf
    have hu : cpuUsageField (some s) = cpuUsageField none := by
      show (if s = "" then none else pyFloat s) = none
      by_cases hs : s = ""
      · rw [if_pos hs]
      · rw [if_neg hs]
        exact hf
    unfold get_cpu_metrics
    simp only [hu]
  · intro u la f s hf
    have ht : tempField (some s) = tempField none := by
      show (if s = "" then none else pyFloat (pyReplace (pyReplace s "temp=" "") "'C" "")) = none
      by_cases hs : s = ""
      · rw [if_pos hs]
      · rw [if_neg hs]
        exact hf
    unfold get_cpu_metrics
    simp only [ht]
  · intro u la t s hf
    have hq : freqField (some s) = freqField none := by
      show (if s = "" then none else ((pySplitOn s '=').get? 1).bind pyInt) = none
      by_cases hs : s = ""
      · rw [if_pos hs]
      · rw [if_neg hs]
        exact hf
    unfold get_cpu_metrics
    simp only [hq]
  · intro tc tm fs s hi
    have hp : procCountField (some s) = procCountField none := by
      show (if s = "" then none else (pyInt s).map (fun n => n - 1)) = none
      by_cases hs : s = ""
      · rw [if_pos hs]
      · rw [if_neg hs, hi]
        rfl
    unfold get_process_metrics
    rw [hp]
  · intro u t f s e hs hp
    have hl : cpuLoadField (some s) = Except.error e := by
      show (if s = "" then Except.ok none
            else match parseLoadAverage s with
                 | Except.error e => Except.error e
                 | Except.ok v => Except.ok (some v)) = Except.error e
      rw [if_neg hs, hp]
    unfold get_cpu_metrics
    rw [hl]
  · intro si s e hs hlen hp
    have hm : memoryField (some s) = Except.error e := by
      show (if s = "" then Except.ok none
            else if (pyLines s).length ≥ 2 then
              match parseMemRecord (pySplit ((pyLines s).getD 1 "")) with
              | Except.error e => Except.error e
              | Except.ok r => Except.ok (some r)
            else Except.ok none) = Except.error e
      rw [if_neg hs, if_pos hlen, hp]
    unfold get_memory_metrics
    rw [hm]

/-- C1 amended witness: each containment and each escape at a concrete
malformed input. -/
theorem parse_failure_containment_amended_witness :
    get_cpu_metrics (some "x") none none none = get_cpu_metrics none none none none ∧
    get_cpu_metrics none none (some "temp=zz'C") none = get_cpu_metrics none none none none ∧
    get_cpu_metrics none none none (some "frequency(45)") = get_cpu_metrics none none none none ∧
    get_process_metrics none none (some "??") none = get_process_metrics none none none none ∧
    get_cpu_metrics none (some "a b c") none none = Except.error PyError.valueError ∧
    get_memory_metrics (some "header\nMem: x") none = Except.error PyError.valueError :=
  ⟨parse_failure_containment_amended.1 none none none "x" (by decide),
   parse_failure_containment_amended.2.1 none none none "temp=zz'C" (by decide),
   parse_failure_containment_amended.2.2.1 none none none "frequency(45)" (by decide),
   parse_failure_containment_amended.2.2.2.1 none none none "??" (by decide),
   parse_failure_containment_amended.2.2.2.2.1 none none none "a b c" PyError.valueError
     (by decide) (by decide),
   parse_failure_containment_amended.2.2.2.2.2 none "header\nMem: x" PyError.valueError
     (by decide) (by decide) (by decide)⟩

/-! Claim C2. -/

/-- C2 counterexample: the executor does return a failure value on a
timeout, but the ping probe's field is then not omitted from the
snapshot — `internet_connectivity` is present with value `false`. -/
theorem connectivity_probe_failure_not_omitted :
    run_remote_command ExecOutcome.timedOut = none ∧
    (get_network_metrics none (run_remote_command ExecOutcome.timedOut) none).internet_connectivity
      = some false ∧
    some false ≠ (none : Option Bool) := by
  exact ⟨rfl, rfl, by decide⟩

/-- C2 (amended): the executor returns `None` (never raises) on
non-zero exit, timeout or channel failure and the stripped stdout on
exit status 0; a failed probe's fields are omitted from the snapshot
for every probe except the connectivity probe, whose
`internet_connectivity` field is instead set to `false`. -/
theorem executor_failure_semantics_amended :
    (∀ rc out err, rc ≠ 0 → run_remote_command (ExecOutcome.completed rc out err) = none) ∧
    run_remote_command ExecOutcome.timedOut = none ∧
    run_remote_command ExecOutcome.channelError = none ∧
    (∀ out err, run_remote_command (ExecOutcome.completed 0 out err) = some (pyStrip out)) ∧
    (∀ ts hn p m, collect_all_metrics ts hn p = Except.ok m →
      (p.uptime = none → m.system_info.uptime = none) ∧
      (p.kernel = none → m.system_info.kernel_version = none) ∧
      (p.os_version = none → m.system_info.os_version = none) ∧
      (p.cpu_usage = none → m.cpu_metrics.cpu_usage_percent = none) ∧
      (p.load_avg = none → m.cpu_metrics.load_average = none) ∧
      (p.temp = none → m.cpu_metrics.cpu_temperature_c = none) ∧
      (p.freq = none → m.cpu_metrics.cpu_frequency_hz = none) ∧
      (p.mem_info = none → m.memory_metrics.memory = none) ∧
      (p.swap_info = none → m.memory_metrics.swap = none) ∧
      (p.disk_usage = none → m.disk_metrics.disk_usage = none) ∧
      (p.iostat = none → m.disk_metrics.disk_io = none) ∧
      (p.interfaces = none → m.network_metrics.network_interfaces = none) ∧
      (p.conns = none → m.network_metrics.active_connections = none) ∧
      (p.ping_test = none → m.network_metrics.internet_connectivity = some false) ∧
      (p.top_cpu = none → m.process_metrics.top_cpu_processes = none) ∧
      (p.top_mem = none → m.process_metrics.top_memory_processes = none) ∧
      (p.proc_count = none → m.process_metrics.total_processes = none) ∧
      (p.failed_svcs = none → m.process_metrics.failed_services = none) ∧
      (p.kernel_errs = none → m.log_errors.recent_kernel_errors = none) ∧
      (p.syslog_errs = none → m.log_errors.recent_syslog_errors = none)) := by
  refine ⟨?_, rfl, rfl, fun out err => rfl, ?_⟩
  · intro rc out err h
    show (if rc = 0 then some (pyStrip out) else none) = none
    rw [if_neg h]
  · intro ts hn p m h
    obtain ⟨h1, h2, h3, h4, h5, h6, h7, -, -⟩ := collect_all_metrics_ok h
    obtain ⟨hsu, hsk, hso⟩ := get_system_info_ok h1
    obtain ⟨hcu, hcl, hct, hcf⟩ := get_cpu_metrics_ok h2
    obtain ⟨hmm, hms⟩ := get_memory_metrics_ok h3
    refine ⟨?_, ?_, ?_, ?_, ?_, ?_, ?_, ?_, ?_, ?_, ?_, ?_, ?_, ?_, ?_, ?_, ?_, ?_, ?_, ?_⟩
    · intro hp; rw [hp] at hsu; exact hsu
    · intro hp; rw [hp] at hsk; exact hsk
    · intro hp
      rw [hp] at hso
      injection hso with hso
      exact hso.symm
    · intro hp; rw [hp] at hcu; exact hcu
    · intro hp
      rw [hp] at hcl
      injection hcl with hcl
      exact hcl.symm
    · intro hp; rw [hp] at hct; exact hct
    · intro hp; rw [hp] at hcf; exact hcf
    · intro hp
      rw [hp] at hmm
      injection hmm with hmm
      exact hmm.symm
    · intro hp
      rw [hp] at hms
      injection hms with hms
      exact hms.symm
    · intro hp; rw [h4, hp]; rfl
    · intro hp; rw [h4, hp]; rfl
    · intro hp; rw [h5, hp]; rfl
    · intro hp; rw [h5, hp]; rfl
    · intro hp; rw [h5, hp]; rfl
    · intro hp; rw [h6, hp]; rfl
    · intro hp; rw [h6, hp]; rfl
    · intro hp; rw [h6, hp]; rfl
    · intro hp; rw [h6, hp]; rfl
    · intro hp; rw [h7, hp]; rfl
    · intro hp; rw [h7, hp]; rfl

/-- Probe outputs for the C2 witness (every remote command failed). -/
def c2Probes : ProbeOutputs :=
  ⟨none, none, none, none, none, none, none, none, none, none,
   none, none, none, none, none, none, none, none, none, none⟩

/-- The snapshot collected from `c2Probes`. -/
def c2Snap : Snapshot :=
  { timestamp := "2024-01-01T00:00:00", hostname := "pi",
    system_info := { uptime := none, kernel_version := none, os_version := none },
    cpu_metrics := { cpu_usage_percent := none, load_average := none,
                     cpu_temperature_c := none, cpu_frequency_hz := none },
    memory_metrics := { memory := none, swap := none },
    disk_metrics := { disk_usage := none, disk_io := none },
    network_metrics := { network_interfaces := none, internet_connectivity := some false,
                         active_connections := none },
    process_metrics := { top_cpu_processes := none, top_memory_processes := none,
                         total_processes := none, failed_services := none },
    log_errors := { recent_kernel_errors := none, recent_syslog_errors := none } }

/-- C2 amended witness: the executor cases at concrete outcomes and the
omission of every failed probe's fields from a concrete snapshot. -/
theorem executor_failure_semantics_amended_witness :
    run_remote_command (ExecOutcome.completed 1 "out" "boom") = none ∧
    run_remote_command (ExecOutcome.completed 0 "  up 3 days  " "") = some (pyStrip "  up 3 days  ") ∧
    (c2Snap.system_info.uptime = none ∧
     c2Snap.system_info.kernel_version = none ∧
     c2Snap.system_info.os_version = none ∧
     c2Snap.cpu_metrics.cpu_usage_percent = none ∧
     c2Snap.cpu_metrics.load_average = none ∧
     c2Snap.cpu_metrics.cpu_temperature_c = none ∧
     c2Snap.cpu_metrics.cpu_frequency_hz = none ∧
     c2Snap.memory_metrics.memory = none ∧
     c2Snap.memory_metrics.swap = none ∧
     c2Snap.disk_metrics.disk_usage = none ∧
     c2Snap.disk_metrics.disk_io = none ∧
     c2Snap.network_metrics.network_interfaces = none ∧
     c2Snap.network_metrics.active_connections = none ∧
     c2Snap.network_metrics.internet_connectivity = some false ∧
     c2Snap.process_metrics.top_cpu_processes = none ∧
     c2Snap.process_metrics.top_memory_processes = none ∧
     c2Snap.process_metrics.total_processes = none ∧
     c2Snap.process_metrics.failed_services = none ∧
     c2Snap.log_errors.recent_kernel_errors = none ∧
     c2Snap.log_errors.recent_syslog_errors = none) := by
  refine ⟨executor_failure_semantics_amended.1 1 "out" "boom" (by decide),
          executor_failure_semantics_amended.2.2.2.1 "  up 3 days  " "", ?_⟩
  obtain ⟨w1, w2, w3, w4, w5, w6, w7, w8, w9, w10,
          w11, w12, w13, w14, w15, w16, w17, w18, w19, w20⟩ :=
    executor_failure_semantics_amended.2.2.2.2 "2024-01-01T00:00:00" "pi" c2Probes c2Snap
      (by decide)
  exact ⟨w1 rfl, w2 rfl, w3 rfl, w4 rfl, w5 rfl, w6 rfl, w7 rfl, w8 rfl, w9 rfl, w10 rfl,
         w11 rfl, w12 rfl, w13 rfl, w14 rfl, w15 rfl, w16 rfl, w17 rfl, w18 rfl, w19 rfl, w20 rfl⟩

/-! Claim C4. -/

/-- Probes whose only success is the temperature reading `75.0`. -/
def c4Probes75 : ProbeOutputs :=
  ⟨none, none, none, none, none, some "temp=75.0'C", none, none, none, none,
   none, none, none, none, none, none, none, none, none, none⟩

/-- Probes whose only success is the temperature reading `65.0`. -/
def c4Probes65 : ProbeOutputs :=
  ⟨none, none, none, none, none, some "temp=65.0'C", none, none, none, none,
   none, none, none, none, none, none, none, none, none, none⟩

/-- Probes with a hot temperature (80 °C) and a 95 % memory usage. -/
def c4ProbesBoth : ProbeOutputs :=
  ⟨none, none, none, none, none, some "temp=80.0'C", none,
   some "total used free shared buff/cache available\nMem: 100 95 4 1 1 5", none, none,
   none, none, none, none, none, none, none, none, none, none⟩

/-- The snapshot collected from `c4ProbesBoth`. -/
def c4SnapBoth : Snapshot :=
  { timestamp := "2024-01-01T00:00:00", hostname := "pi",
    system_info := { uptime := none, kernel_version := none, os_version := none },
    cpu_metrics := { cpu_usage_percent := none, load_average := none,
                     cpu_temperature_c := some 80, cpu_frequency_hz := none },
    memory_metrics := { memory := some { total_mb := 100, used_mb := 95, free_mb := 4,
                                         available_mb := 5,
                                         usage_percent := ((95 : Int) : ℚ) / ((100 : Int) : ℚ) * 100 },
                        swap := none },
    disk_metrics := { disk_usage := none, disk_io := none },
    network_metrics := { network_interfaces := none, internet_connectivity := some false,
                         active_connections := none },
    process_metrics := { top_cpu_processes := none, top_memory_processes := none,
                         total_processes := none, failed_services := none },
    log_errors := { recent_kernel_errors := none, recent_syslog_errors := none } }

/-- C4: `temp=75.0'C` parses to 75 and fires the high-temperature
warning while `temp=65.0'C` parses to 65 and does not; the temperature
check (above 70) and the memory check (above 90 %) depend only on their
own category's field, the persisted document is exactly the collected
snapshot regardless of the warnings, and both warnings can fire in the
same cycle. -/
theorem temperature_warning_behaviour :
    get_cpu_metrics none none (some "temp=75.0'C") none = Except.ok
      { cpu_usage_percent := none, load_average := none,
        cpu_temperature_c := some 75, cpu_frequency_hz := none } ∧
    (monitor_once "2024-01-01T00:00:00" "pi" c4Probes75 true).tempWarned = true ∧
    get_cpu_metrics none none (some "temp=65.0'C") none = Except.ok
      { cpu_usage_percent := none, load_average := none,
        cpu_temperature_c := some 65, cpu_frequency_hz := none } ∧
    (monitor_once "2024-01-01T00:00:00" "pi" c4Probes65 true).tempWarned = false ∧
    (∀ ts hn p w m, collect_all_metrics ts hn p = Except.ok m →
        ((monitor_once ts hn p w).tempWarned = true ↔
          ∃ t, m.cpu_metrics.cpu_temperature_c = some t ∧ t > 70) ∧
        ((monitor_once ts hn p w).memWarned = true ↔
          ∃ r, m.memory_metrics.memory = some r ∧ r.usage_percent > 90) ∧
        (monitor_once ts hn p w).saved = save_metrics w m ∧
        (monitor_once ts hn p w).success = true) ∧
    ((monitor_once "2024-01-01T00:00:00" "pi" c4ProbesBoth true).tempWarned = true ∧
     (monitor_once "2024-01-01T00:00:00" "pi" c4ProbesBoth true).memWarned = true ∧
     (monitor_once "2024-01-01T00:00:00" "pi" c4ProbesBoth true).saved = some c4SnapBoth) := by
  refine ⟨by decide, by decide, by decide, by decide, ?_, by decide, ?_, by rfl⟩
  · intro ts hn p w m h
    unfold monitor_once
    rw [h]
    refine ⟨?_, ?_, rfl, rfl⟩
    · show (match m.cpu_metrics.cpu_temperature_c with
            | some t => decide (t > 70)
            | none => false) = true ↔ _
      cases hc : m.cpu_metrics.cpu_temperature_c with
      | none => simp
      | some t => simp [decide_eq_true_eq]
    · show (match m.memory_metrics.memory with
            | some r => decide (r.usage_percent > 90)
            | none => false) = true ↔ _
      cases hm : m.memory_metrics.memory with
      | none => simp
      | some r => simp [decide_eq_true_eq]
  · have hmw : (monitor_once "2024-01-01T00:00:00" "pi" c4ProbesBoth true).memWarned
        = decide (((95 : Int) : ℚ) / ((100 : Int) : ℚ) * 100 > 90) := rfl
    rw [hmw, decide_eq_true_eq]
    norm_num

/-- C4 witness: the warning-independence clause instantiated on the
cycle in which both warnings fire. -/
theorem temperature_warning_behaviour_witness :
    ((monitor_once "2024-01-01T00:00:00" "pi" c4ProbesBoth true).tempWarned = true ↔
      ∃ t, c4SnapBoth.cpu_metrics.cpu_temperature_c = some t ∧ t > 70) ∧
    ((monitor_once "2024-01-01T00:00:00" "pi" c4ProbesBoth true).memWarned = true ↔
      ∃ r, c4SnapBoth.memory_metrics.memory = some r ∧ r.usage_percent > 90) ∧
    (monitor_once "2024-01-01T00:00:00" "pi" c4ProbesBoth true).saved
      = save_metrics true c4SnapBoth ∧
    (monitor_once "2024-01-01T00:00:00" "pi" c4ProbesBoth true).success = true :=
  temperature_warning_behaviour.2.2.2.2.1 "2024-01-01T00:00:00" "pi" c4ProbesBoth true
    c4SnapBoth (by rfl)

/-! Claim C7. -/

/-- C7: in continuous mode a failed cycle (monitor_once returning
`False`, e.g. because a probe's parse raised and was caught at the cycle
boundary) never stops the loop — with failing cycles on every iteration
the loop runs forever and logs exactly one failed-cycle entry per
interval; the loop state only ever becomes stopped because some earlier
event was a keyboard interrupt, an interrupt stops a running loop
cleanly, and a stopped loop performs no further work. -/
theorem continuous_loop_resilience :
    (∀ ts hn events,
        (∀ n : ℕ, ∃ p w, events n = LoopEvent.cycle p w ∧
            (monitor_once ts hn p w).success = false) →
        ∀ n, (loopRun ts hn events n).stopped = false ∧
          (loopRun ts hn events n).failedCycleLogs = n ∧
          (loopRun ts hn events n).cycles = n) ∧
    (∀ ts hn events n, (loopRun ts hn events n).stopped = true →
        ∃ k, k < n ∧ events k = LoopEvent.interrupt) ∧
    (∀ ts hn s, s.stopped = false →
        loopStep ts hn s LoopEvent.interrupt = { s with stopped := true }) ∧
    (∀ ts hn s e, s.stopped = true → loopStep ts hn s e = s) := by
  refine ⟨?_, ?_, ?_, ?_⟩
  · intro ts hn events hfail n
    induction n with
    | zero => exact ⟨rfl, rfl, rfl⟩
    | succ n ih =>
      obtain ⟨p, w, he, hf⟩ := hfail n
      refine ⟨?_, ?_, ?_⟩ <;>
        simp [loopRun, he, loopStep, ih.1, ih.2.1, ih.2.2, hf]
  · intro ts hn events n
    induction n with
    | zero =>
      intro h
      simp [loopRun, loopInit] at h
    | succ n ih =>
      intro h
      cases he : events n with
      | interrupt => exact ⟨n, Nat.lt_succ_self n, he⟩
      | cycle p w =>
        rw [loopRun, he] at h
        unfold loopStep at h
        by_cases hs : (loopRun ts hn events n).stopped = true
        · obtain ⟨k, hk, hke⟩ := ih hs
          exact ⟨k, Nat.lt_succ_of_lt hk, hke⟩
        · simp [hs] at h
  · intro ts hn s hs
    show (if s.stopped then s else { s with stopped := true }) = { s with stopped := true }
    rw [hs]
    rfl
  · intro ts hn s e hs
    cases e with
    | cycle p w =>
      show (if s.stopped then s else _) = s
      rw [if_pos hs]
    | interrupt =>
      show (if s.stopped then s else _) = s
      rw [if_pos hs]

/-- Probe outputs whose malformed load average makes every cycle
fail. -/
def c7Probes : ProbeOutputs :=
  ⟨none, none, none, none, some "not a loadavg", none, none, none, none, none,
   none, none, none, none, none, none, none, none, none, none⟩

/-- An event stream that runs a failing cycle on every iteration. -/
def c7Events : ℕ → LoopEvent := fun _ => LoopEvent.cycle c7Probes true

/-- C7 witness: after three failing cycles the loop is still running,
with one failed-cycle log per interval. -/
theorem continuous_loop_resilience_witness :
    (loopRun "2024-01-01T00:00:00" "pi" c7Events 3).stopped = false ∧
    (loopRun "2024-01-01T00:00:00" "pi" c7Events 3).failedCycleLogs = 3 ∧
    (loopRun "2024-01-01T00:00:00" "pi" c7Events 3).cycles = 3 :=
  continuous_loop_resilience.1 "2024-01-01T00:00:00" "pi" c7Events
    (fun _ => ⟨c7Probes, true, rfl, by decide⟩) 3
